import Mathlib

/-!
Shallow embedding of the Spree "Current Pulse" scoring engine
(lib/pulse/calculations.ts, lib/pulse/community.ts, lib/pulse/engine.ts,
lib/pulse/services/google-service.ts, lib/ai/google-live-busyness.ts).

Numbers are modelled by `ℚ` (scores, confidences, ages in minutes) and `ℤ`
(counts, hours, day-of-week, timestamps in minutes).  JavaScript
`Math.round` is `jsRound` below (floor of x + 1/2).  Wall-clock fields
(`lastUpdated`) carry no algorithmic content and are omitted from the
embedded records.
-/

/-- JavaScript `Math.round`: round half toward positive infinity. -/
def jsRound (q : ℚ) : ℤ := ⌊q + 1/2⌋

/-- `checkInTrend` values from `VenueMetrics` (lib/pulse/types.ts). -/
inductive CheckInTrend
  | surging | increasing | stable | decreasing
deriving DecidableEq, Repr

/-- `VenueMetrics` (lib/pulse/types.ts). -/
structure VenueMetrics where
  venueId : ℤ
  activeCheckIns : ℤ
  checkInsLast30Min : ℤ
  checkInsLastHour : ℤ
  checkInTrend : CheckInTrend
  reportedWaitTime : Option ℚ
  recentRatings : ℤ
  recentSentiment : ℚ
  vibePhotosCount : ℤ
  dayOfWeek : ℤ
  hourOfDay : ℤ
  isSpecialEvent : Bool
deriving DecidableEq, Repr

/-- `VenueDataSource` (lib/pulse/types.ts). -/
inductive VenueDataSource
  | spree | community | google | estimated
deriving DecidableEq, Repr

/-- `PulseCalculator.calculateActivityScore` (calculations.ts): step
function from active check-ins to the base score. -/
def calculateActivityScore (activeCheckIns : ℤ) : ℚ :=
  if activeCheckIns ≥ 100 then 9.0
  else if activeCheckIns ≥ 75 then 8.5
  else if activeCheckIns ≥ 50 then 8.0
  else if activeCheckIns ≥ 30 then 7.0
  else if activeCheckIns ≥ 20 then 6.5
  else if activeCheckIns ≥ 15 then 6.0
  else if activeCheckIns ≥ 10 then 5.5
  else if activeCheckIns ≥ 5 then 5.0
  else if activeCheckIns ≥ 2 then 4.5
  else if activeCheckIns > 0 then 4.0
  else 3.0

/-- `PulseCalculator.calculateMomentumBoost` (calculations.ts). -/
def calculateMomentumBoost : CheckInTrend → ℚ
  | .surging => 1.0
  | .increasing => 0.5
  | .stable => 0
  | .decreasing => -0.5

/-- `PulseCalculator.calculateVibeBoost` (calculations.ts): sentiment and
photo-count boosts, summed and capped at 1.0. -/
def calculateVibeBoost (sentiment : ℚ) (photoCount : ℤ) : ℚ :=
  let b1 : ℚ :=
    if sentiment > 0.7 then 0.5
    else if sentiment > 0.3 then 0.3
    else if sentiment > 0 then 0.1
    else 0
  let b2 : ℚ :=
    if photoCount ≥ 10 then 0.5
    else if photoCount ≥ 5 then 0.3
    else if photoCount ≥ 2 then 0.2
    else if photoCount > 0 then 0.1
    else 0
  min 1.0 (b1 + b2)

/-- `PulseCalculator.calculateWaitTimeBoost` (calculations.ts).  The JS
guard `if (!waitTime) return 0` fires for `null` and for `0`. -/
def calculateWaitTimeBoost : Option ℚ → ℚ
  | none => 0
  | some t =>
    if t = 0 then 0
    else if t ≥ 45 then 2.0
    else if t ≥ 30 then 1.5
    else if t ≥ 20 then 1.0
    else if t ≥ 10 then 0.7
    else if t ≥ 5 then 0.5
    else 0

/-- `PulseCalculator.applyTimeModifiers` (calculations.ts): first-match
calendar-window multiplier. -/
def applyTimeModifiers (basePulse : ℚ) (hour dayOfWeek : ℤ) : ℚ :=
  let modifier : ℚ :=
    if (dayOfWeek ≥ 4 ∨ dayOfWeek = 0) ∧ (hour ≥ 22 ∨ hour ≤ 2) then 1.15
    else if hour ≥ 20 ∨ hour ≤ 0 then 1.1
    else if dayOfWeek ≥ 1 ∧ dayOfWeek ≤ 5 ∧ hour ≥ 17 ∧ hour ≤ 19 then 1.05
    else if dayOfWeek ≥ 1 ∧ dayOfWeek ≤ 3 ∧ (hour ≥ 23 ∨ hour ≤ 1) then 0.9
    else if hour ≥ 6 ∧ hour < 17 then 0.7
    else if hour ≥ 3 ∧ hour < 6 then 0.5
    else 1.0
  basePulse * modifier

/-- `PulseCalculator.calculateFromMetrics` (calculations.ts): the value
component (`Pick<PulseData, value>`). -/
def calculateFromMetrics (metrics : VenueMetrics) : ℚ :=
  let pulse := calculateActivityScore metrics.activeCheckIns
  let pulse := pulse + calculateMomentumBoost metrics.checkInTrend
  let pulse := pulse + calculateVibeBoost metrics.recentSentiment metrics.vibePhotosCount
  let pulse := pulse + calculateWaitTimeBoost metrics.reportedWaitTime
  let pulse := applyTimeModifiers pulse metrics.hourOfDay metrics.dayOfWeek
  let pulse := if metrics.isSpecialEvent then pulse * 1.2 else pulse
  let finalPulse := min 10 (max 0 pulse)
  (jsRound (finalPulse * 10) : ℚ) / 10

/-- `PulseCalculator.convertGoogleToSpree` (calculations.ts): piecewise
conversion from the external 0-100 scale to the engine's 0-10 scale. -/
def convertGoogleToSpree (googleBusyness : ℚ) : ℚ :=
  if googleBusyness ≥ 90 then 9.5
  else if googleBusyness ≥ 80 then 8.5 + (googleBusyness - 80) / 20
  else if googleBusyness ≥ 70 then 7.5 + (googleBusyness - 70) / 20
  else if googleBusyness ≥ 60 then 7.0 + (googleBusyness - 60) / 40
  else if googleBusyness ≥ 50 then 6.5 + (googleBusyness - 50) / 40
  else if googleBusyness ≥ 40 then 6.0 + (googleBusyness - 40) / 40
  else if googleBusyness ≥ 30 then 5.5 + (googleBusyness - 30) / 40
  else if googleBusyness ≥ 20 then 5.0 + (googleBusyness - 20) / 40
  else if googleBusyness ≥ 10 then 4.0 + (googleBusyness - 10) / 20
  else if googleBusyness > 0 then 3.0 + googleBusyness / 10
  else 3.0

/-- Data-source tags accepted by `calculateConfidence` (calculations.ts). -/
inductive ConfidenceSource
  | spree | community | google
deriving DecidableEq, Repr

/-- `PulseCalculator.calculateConfidence` (calculations.ts).  Note the
freshness adjustments form a single `else if` chain in the source. -/
def calculateConfidence (dataPoints : ℤ) (dataAge : ℚ) (dataSource : ConfidenceSource) : ℚ :=
  let base : ℚ :=
    match dataSource with
    | .spree => 0.9
    | .community => 0.7
    | .google => 0.6
  let base :=
    if dataPoints ≥ 20 then base + 0.1
    else if dataPoints ≥ 10 then base + 0.05
    else if dataPoints < 3 then base - 0.2
    else base
  let base :=
    if dataAge < 15 then base + 0.05
    else if dataAge > 60 then base - 0.1
    else if dataAge > 120 then base - 0.2
    else base
  min 1 (max 0.1 base)

/-- The source-tag base confidence, written out separately so theorems can
speak about it (mirrors the `switch` in `calculateConfidence`). -/
def confidenceSourceBase : ConfidenceSource → ℚ
  | .spree => 0.9
  | .community => 0.7
  | .google => 0.6

/-- The data-quantity adjustment of `calculateConfidence`, written out
separately so theorems can speak about it. -/
def confidenceQuantityAdj (dataPoints : ℤ) : ℚ :=
  if dataPoints ≥ 20 then 0.1
  else if dataPoints ≥ 10 then 0.05
  else if dataPoints < 3 then -0.2
  else 0

/-- `vibe_level` values (lib/pulse/types.ts). -/
inductive VibeLevel
  | dead | chill | busy | packed
deriving DecidableEq, Repr

/-- `crowd_estimate` values (lib/pulse/types.ts). -/
inductive CrowdEstimate
  | p0 | p25 | p50 | p75 | p100
deriving DecidableEq, Repr

/-- The `vibeScores` tally record of `getConsensus` (community.ts),
initialised `{dead: 0, chill: 0, busy: 0, packed: 0}`. -/
structure VibeScores where
  dead : ℕ
  chill : ℕ
  busy : ℕ
  packed : ℕ
deriving DecidableEq, Repr

/-- One row read from `community_vibe_reports` by `getConsensus`. -/
structure VibeReportRow where
  vibe_level : Option VibeLevel
  wait_time_minutes : Option ℚ
  crowd_estimate : Option CrowdEstimate
deriving DecidableEq, Repr

/-- Per-label count lookup on a `VibeScores` record. -/
def VibeScores.count (s : VibeScores) : VibeLevel → ℕ
  | .dead => s.dead
  | .chill => s.chill
  | .busy => s.busy
  | .packed => s.packed

/-- Increment one label's tally (the `vibeScores[report.vibe_level]++`). -/
def VibeScores.bump (s : VibeScores) : VibeLevel → VibeScores
  | .dead => { s with dead := s.dead + 1 }
  | .chill => { s with chill := s.chill + 1 }
  | .busy => { s with busy := s.busy + 1 }
  | .packed => { s with packed := s.packed + 1 }

/-- The tally loop of `getConsensus`: reports with a null `vibe_level`
are not counted. -/
def tallyVibes (reports : List VibeReportRow) : VibeScores :=
  reports.foldl
    (fun s r => match r.vibe_level with
      | some v => s.bump v
      | none => s)
    ⟨0, 0, 0, 0⟩

/-- The consensus-finding loop of `getConsensus`: iterate the tally in
`Object.entries` order dead, chill, busy, packed, keeping
`(consensusVibe, maxVotes)`, updating when `count > maxVotes` and
`count >= totalVibeReports * 0.3`. -/
def findConsensusVibe (s : VibeScores) : Option VibeLevel :=
  let total := s.dead + s.chill + s.busy + s.packed
  let step := fun (acc : Option VibeLevel × ℕ) (entry : VibeLevel × ℕ) =>
    if acc.2 < entry.2 ∧ (total : ℚ) * (3/10) ≤ (entry.2 : ℚ) then
      (some entry.1, entry.2)
    else acc
  ([(VibeLevel.dead, s.dead), (VibeLevel.chill, s.chill),
    (VibeLevel.busy, s.busy), (VibeLevel.packed, s.packed)].foldl step (none, 0)).1

/-- `CommunityConsensus` (lib/pulse/types.ts). -/
structure CommunityConsensus where
  vibeReports : ℕ
  consensusVibe : Option VibeLevel
  vibeScores : VibeScores
  averageWaitTime : Option ℚ
  anonymousPings : ℕ
  uniqueDevices : ℕ
  socialSignals : ℕ
  dataPoints : ℕ
deriving DecidableEq, Repr

/-- `CommunityDataService.getConsensus` (community.ts), as a pure function
of the rows the three windowed queries return: vibe-report rows, ping
device ids, and social-signal rows.  The JS truthy test
`if (report.wait_time_minutes)` skips both `null` and `0` waits. -/
def getConsensus (vibeReports : List VibeReportRow) (pingDevices : List String)
    (socialSignals : List String) : CommunityConsensus :=
  let scores := tallyVibes vibeReports
  let waits := vibeReports.filterMap
    (fun r => match r.wait_time_minutes with
      | some w => if w = 0 then none else some w
      | none => none)
  let totalVibeReports := scores.dead + scores.chill + scores.busy + scores.packed
  { vibeReports := totalVibeReports
    consensusVibe := findConsensusVibe scores
    vibeScores := scores
    averageWaitTime :=
      if waits.length = 0 then none else some (waits.sum / (waits.length : ℚ))
    anonymousPings := pingDevices.length
    uniqueDevices := pingDevices.dedup.length
    socialSignals := socialSignals.length
    dataPoints := totalVibeReports + pingDevices.length + socialSignals.length }

/-- Result of `CommunityDataService.calculateInfluence` (community.ts). -/
structure Influence where
  influence : ℚ
  adjustment : ℚ
deriving DecidableEq, Repr

/-- `CommunityDataService.calculateInfluence` (community.ts).  The JS
truthy test `if (consensus.averageWaitTime)` skips `null` and `0`. -/
def calculateInfluence (consensus : CommunityConsensus) : Influence :=
  if consensus.dataPoints < 3 then ⟨0, 0⟩
  else
    let influence : ℚ := min 0.4 ((consensus.dataPoints : ℚ) / 20)
    let influence :=
      if consensus.consensusVibe.isSome ∧ consensus.vibeReports ≥ 5 then
        min 0.6 (influence + 0.2)
      else influence
    let adjustment : ℚ :=
      match consensus.consensusVibe with
      | some .packed => 2
      | some .busy => 1
      | some .chill => 0
      | some .dead => -2
      | none => 0
    let adjustment :=
      match consensus.averageWaitTime with
      | none => adjustment
      | some w =>
        if w = 0 then adjustment
        else if w ≥ 30 then adjustment + 1
        else if w ≥ 15 then adjustment + 0.5
        else adjustment
    let adjustment := if consensus.uniqueDevices ≥ 20 then adjustment + 0.5 else adjustment
    let adjustment := if consensus.socialSignals ≥ 5 then adjustment + 0.3 else adjustment
    ⟨influence, max (-2) (min 2 adjustment)⟩

/-- Rate-limit failure raised by `submitVibeReport` (community.ts throws
`Error('You already reported this venue recently')`). -/
inductive SubmitError
  | RateLimited
deriving DecidableEq, Repr

/-- `QuickVibeReport` (lib/pulse/types.ts). -/
structure QuickVibeReport where
  venue_id : ℤ
  user_id : String
  vibe_level : VibeLevel
  wait_time_minutes : Option ℚ
  crowd_estimate : Option CrowdEstimate
deriving DecidableEq, Repr

/-- A stored row of `community_vibe_reports` (`created_at` in minutes). -/
structure StoredReport where
  venue_id : ℤ
  user_id : String
  vibe_level : VibeLevel
  wait_time_minutes : Option ℚ
  crowd_estimate : Option CrowdEstimate
  created_at : ℤ
deriving DecidableEq, Repr

/-- `CommunityDataService.submitVibeReport` (community.ts): reject when an
accepted row for the same (venue, user) has `created_at >= now - 60`
minutes, else insert the report stamped `created_at := now`. -/
def submitVibeReport (now : ℤ) (db : List StoredReport) (report : QuickVibeReport) :
    Except SubmitError (List StoredReport) :=
  let oneHourAgo := now - 60
  if db.any (fun e =>
      e.venue_id = report.venue_id ∧ e.user_id = report.user_id ∧ oneHourAgo ≤ e.created_at) then
    .error .RateLimited
  else
    .ok ({ venue_id := report.venue_id, user_id := report.user_id,
           vibe_level := report.vibe_level,
           wait_time_minutes := report.wait_time_minutes,
           crowd_estimate := report.crowd_estimate, created_at := now } :: db)

/-- `relativeLevel` values (`GoogleBusynessData`, lib/pulse/types.ts). -/
inductive RelativeLevel
  | low | below_average | average | above_average | high
deriving DecidableEq, Repr

/-- `trend` values (`GoogleBusynessData`, lib/pulse/types.ts). -/
inductive BusynessTrend
  | decreasing | stable | increasing
deriving DecidableEq, Repr

/-- `GoogleBusynessData` (lib/pulse/types.ts), minus the wall-clock
`lastUpdated` field. -/
structure GoogleBusynessData where
  currentBusyness : ℚ
  usualBusyness : ℚ
  relativeLevel : RelativeLevel
  trend : BusynessTrend
  confidence : ℚ
deriving DecidableEq, Repr

/-- `GoogleBusynessService.calculateRelativeLevel`
(lib/pulse/services/google-service.ts): the current/usual quotient is
replaced by 1 when `usual > 0` fails. -/
def calculateRelativeLevel (current usual : ℚ) : RelativeLevel :=
  let q : ℚ := if usual > 0 then current / usual else 1
  if q < 0.5 then .low
  else if q < 0.8 then .below_average
  else if q < 1.2 then .average
  else if q < 1.5 then .above_average
  else .high

/-- `GoogleBusynessService.calculateTrend`
(lib/pulse/services/google-service.ts). -/
def calculateTrend (current usual : ℚ) : BusynessTrend :=
  let difference := current - usual
  if difference > 10 then .increasing
  else if difference < -10 then .decreasing
  else .stable

/-- `GoogleLiveBusynessService.getBusynessLevel`
(lib/ai/google-live-busyness.ts): early `'average'` return when
`usual === 0`. -/
def getBusynessLevel (current usual : ℚ) : RelativeLevel :=
  if usual = 0 then .average
  else
    let q := current / usual
    if q < 0.5 then .low
    else if q < 0.8 then .below_average
    else if q < 1.2 then .average
    else if q < 1.5 then .above_average
    else .high

/-- `PulseBreakdown` (lib/pulse/types.ts). -/
structure PulseBreakdown where
  checkIns : Option ℤ := none
  googleBusy : Option ℚ := none
  communityReports : Option ℕ := none
  waitTime : Option ℚ := none
  vibeScore : Option ℚ := none
deriving DecidableEq, Repr

/-- `PulseData` (lib/pulse/types.ts), minus the wall-clock `lastUpdated`. -/
structure PulseData where
  value : ℚ
  confidence : ℚ
  dataSource : VenueDataSource
  breakdown : Option PulseBreakdown := none
deriving DecidableEq, Repr

/-- A row of the `venues` table as the engine reads it. -/
structure VenueRecord where
  id : ℤ
  name : String
  spree_onboarded : Bool
  google_place_id : Option String
deriving DecidableEq, Repr

/-- Failures raised inside `PulseEngine.calculatePulse` before the
catch-all (engine.ts): the `Venue not found` throw. -/
inductive PulseError
  | VenueNotFound
deriving DecidableEq, Repr

/-- `PulseEngine.getDefaultPulse` (engine.ts). -/
def getDefaultPulse : PulseData :=
  { value := 5.0, confidence := 0.3, dataSource := .estimated, breakdown := none }

/-- `PulseEngine.calculateSpreePulse` (engine.ts), as a function of the
metrics the Store returns.  `metrics.reportedWaitTime || undefined` drops
both `null` and `0`. -/
def calculateSpreePulse (metrics : VenueMetrics) : PulseData :=
  { value := calculateFromMetrics metrics
    confidence := 0.95
    dataSource := .spree
    breakdown := some
      { checkIns := some metrics.activeCheckIns
        waitTime :=
          match metrics.reportedWaitTime with
          | some t => if t = 0 then none else some t
          | none => none
        vibeScore := some metrics.recentSentiment } }

/-- The state set up by Step 1 of `calculateNonPartnerPulse` (engine.ts):
base pulse, confidence, data source and the `googleBusy` breakdown value
after the external-data attempt. -/
structure SparseInit where
  basePulse : ℚ
  confidence : ℚ
  dataSource : VenueDataSource
  googleBusy : ℚ
deriving DecidableEq, Repr

/-- Step 1 of `calculateNonPartnerPulse` (engine.ts): start from
`(5.0, 0.5, ESTIMATED, 0)`; on a usable external sample
(`currentBusyness > 0`) switch to the converted base with confidence 0.6
and source GOOGLE.  A `none` argument covers all of: no
`google_place_id`, a `null` service result, and a thrown fetch (caught by
the surrounding `try`). -/
def sparseGoogleStep (googleData : Option GoogleBusynessData) : SparseInit :=
  match googleData with
  | some g =>
    if g.currentBusyness > 0 then
      { basePulse := convertGoogleToSpree g.currentBusyness
        confidence := 0.6, dataSource := .google, googleBusy := g.currentBusyness }
    else
      { basePulse := 5.0, confidence := 0.5, dataSource := .estimated, googleBusy := 0 }
  | none =>
    { basePulse := 5.0, confidence := 0.5, dataSource := .estimated, googleBusy := 0 }

/-- The external sample available to the sparse path: `getBusyness` is
consulted only when the venue has a `google_place_id`. -/
def venueGoogleData (venue : VenueRecord)
    (fetch : String → Option GoogleBusynessData) : Option GoogleBusynessData :=
  match venue.google_place_id with
  | some pid => fetch pid
  | none => none

/-- `PulseEngine.calculateNonPartnerPulse` (engine.ts), as a function of
the venue row, an oracle for `googleService.getBusyness` (`none` for a
null result or a thrown fetch), the consensus the community service
returns, and the evaluation hour / day-of-week. -/
def calculateNonPartnerPulse (venue : VenueRecord)
    (fetch : String → Option GoogleBusynessData)
    (communityData : CommunityConsensus) (hour dayOfWeek : ℤ) : PulseData :=
  let init := sparseGoogleStep (venueGoogleData venue fetch)
  let blended :=
    if communityData.dataPoints ≥ 3 then
      let infl := calculateInfluence communityData
      if infl.influence > 0 then
        { init with
          basePulse := init.basePulse * (1 - infl.influence)
            + (init.basePulse + infl.adjustment) * infl.influence
          confidence := min 0.8 (init.confidence + infl.influence * 0.3)
          dataSource :=
            if communityData.dataPoints ≥ 10 then .community else init.dataSource }
      else init
    else init
  let basePulse := applyTimeModifiers blended.basePulse hour dayOfWeek
  let finalPulse := min 10 (max 0 basePulse)
  { value := (jsRound (finalPulse * 10) : ℚ) / 10
    confidence := blended.confidence
    dataSource := blended.dataSource
    breakdown := some
      { googleBusy := some blended.googleBusy
        communityReports := some communityData.dataPoints } }

/-- The body of `PulseEngine.calculatePulse` before its catch-all
(engine.ts): resolve the venue, throw `VenueNotFound` when absent, else
route to the partner or sparse path. -/
def calculatePulseInner (venue : Option VenueRecord) (metrics : VenueMetrics)
    (fetch : String → Option GoogleBusynessData)
    (communityData : CommunityConsensus) (hour dayOfWeek : ℤ) :
    Except PulseError PulseData :=
  match venue with
  | none => .error .VenueNotFound
  | some v =>
    if v.spree_onboarded then .ok (calculateSpreePulse metrics)
    else .ok (calculateNonPartnerPulse v fetch communityData hour dayOfWeek)

/-- `PulseEngine.calculatePulse` (engine.ts): the surrounding
`try/catch` maps every error — including the venue-not-found throw — to
`getDefaultPulse`, so the caller always receives a `PulseData`. -/
def calculatePulse (venue : Option VenueRecord) (metrics : VenueMetrics)
    (fetch : String → Option GoogleBusynessData)
    (communityData : CommunityConsensus) (hour dayOfWeek : ℤ) : PulseData :=
  match calculatePulseInner venue metrics fetch communityData hour dayOfWeek with
  | .error _ => getDefaultPulse
  | .ok p => p

/-- One per-venue record pushed into `results` by
`PulseBatchUpdateService.updateAllVenues` (engine.ts). -/
structure VenueOutcome where
  success : Bool
  venueId : ℤ
  name : String
  pulse : ℚ
  dataSource : VenueDataSource
deriving DecidableEq, Repr

/-- One entry of the `hotVenues` list returned by `updateAllVenues`. -/
structure HotVenue where
  id : ℤ
  name : String
  pulse : ℚ
deriving DecidableEq, Repr

/-- The per-venue `try` block of `updateAllVenues`: evaluate the pulse and
persist it.  `evalVenue` abstracts that whole block (engine call plus the
two Store writes); `none` models a throw at any of its `await`s, mapped by
the `catch` to a failure record with `pulse: 0`. -/
def outcomeFor (evalVenue : VenueRecord → Option PulseData) (venue : VenueRecord) :
    VenueOutcome :=
  match evalVenue venue with
  | some p =>
    { success := true, venueId := venue.id, name := venue.name,
      pulse := p.value, dataSource := p.dataSource }
  | none =>
    { success := false, venueId := venue.id, name := venue.name,
      pulse := 0, dataSource := .estimated }

/-- The chunking loop of `updateAllVenues`
(`for (let i = 0; i < venues.length; i += batchSize)` with
`batchSize = 10`), written with a fuel argument so it computes by kernel
reduction; `chunked10` supplies enough fuel. -/
def chunkGo : ℕ → List α → List (List α)
  | _, [] => []
  | 0, _ :: _ => []
  | fuel + 1, x :: xs => ((x :: xs).take 10) :: chunkGo fuel ((x :: xs).drop 10)

/-- The list of size-10 chunks `updateAllVenues` iterates over. -/
def chunked10 (l : List α) : List (List α) := chunkGo l.length l

/-- The summary returned by `updateAllVenues`. -/
structure BatchResult where
  total : ℕ
  updated : ℕ
  failed : ℕ
  hotVenues : List HotVenue
deriving DecidableEq, Repr

/-- `PulseBatchUpdateService.updateAllVenues` (engine.ts), as a function
of the fetched venue rows and the per-venue evaluation oracle.  Each chunk
is awaited as a whole (`Promise.all`) and its outcome records appended to
`results`; a rejected member becomes a failure record, never an exception
of the batch.  `hotVenues` keeps the successful outcomes with pulse ≥ 7,
sorted by descending pulse (a stable sort models `Array.prototype.sort`
with comparator `b.pulse - a.pulse`). -/
def updateAllVenues (evalVenue : VenueRecord → Option PulseData)
    (venues : List VenueRecord) : BatchResult :=
  if venues.isEmpty then { total := 0, updated := 0, failed := 0, hotVenues := [] }
  else
    let results := (chunked10 venues).foldl
      (fun acc chunk => acc ++ chunk.map (outcomeFor evalVenue)) []
    let updated := results.countP (fun r => r.success)
    let failed := results.countP (fun r => !r.success)
    let hotVenues :=
      ((results.filter (fun r => r.success && decide ((7 : ℚ) ≤ r.pulse))).map
        (fun r => { id := r.venueId, name := r.name, pulse := r.pulse : HotVenue })).mergeSort
        (fun a b => decide (b.pulse ≤ a.pulse))
    { total := venues.length, updated := updated, failed := failed, hotVenues := hotVenues }

/-- Clamp-and-round bounds shared by both scoring paths. -/
theorem clampRound_bounds (q : ℚ) :
    0 ≤ (jsRound (min 10 (max 0 q) * 10) : ℚ) / 10 ∧
    (jsRound (min 10 (max 0 q) * 10) : ℚ) / 10 ≤ 10 := by
  have h0 : (0 : ℚ) ≤ min 10 (max 0 q) := le_min (by norm_num) (le_max_left 0 q)
  have h10 : min 10 (max 0 q) ≤ 10 := min_le_left _ _
  have hlo : (0 : ℤ) ≤ jsRound (min 10 (max 0 q) * 10) := by
    rw [jsRound, Int.le_floor]
    push_cast
    linarith
  have hhi : jsRound (min 10 (max 0 q) * 10) ≤ 100 := by
    have : jsRound (min 10 (max 0 q) * 10) < 101 := by
      rw [jsRound, Int.floor_lt]
      push_cast
      linarith
    omega
  constructor
  · positivity
  · rw [div_le_iff₀ (by norm_num : (0:ℚ) < 10)]
    exact_mod_cast le_trans (Int.cast_le.mpr hhi) (by norm_num)

/-- Claim C4: for every `VenueMetrics` input, `calculateFromMetrics`
returns a value in [0, 10] that is an integer multiple of 0.1. -/
theorem C4_composeScore_bounded (metrics : VenueMetrics) :
    0 ≤ calculateFromMetrics metrics ∧ calculateFromMetrics metrics ≤ 10 ∧
    ∃ n : ℤ, calculateFromMetrics metrics = (n : ℚ) * (1 / 10) := by
  simp only [calculateFromMetrics]
  exact ⟨(clampRound_bounds _).1, (clampRound_bounds _).2, ⟨jsRound _, by ring⟩⟩

/-- `if_neg` under a name of this development, used for band reductions. -/
theorem ite_cond_fails {c : Prop} [Decidable c] {a b : α} (hc : ¬c) :
    (if c then a else b) = b := if_neg hc

theorem act_band_100 (n : ℤ) (h : 100 ≤ n) : calculateActivityScore n = 9 := by
  unfold calculateActivityScore
  rw [if_pos h]
  norm_num

theorem act_band_75 (n : ℤ) (h1 : 75 ≤ n) (h2 : n < 100) :
    calculateActivityScore n = 8.5 := by
  unfold calculateActivityScore
  rw [ite_cond_fails (by omega), if_pos h1]

theorem act_band_50 (n : ℤ) (h1 : 50 ≤ n) (h2 : n < 75) :
    calculateActivityScore n = 8 := by
  unfold calculateActivityScore
  rw [ite_cond_fails (by omega), ite_cond_fails (by omega), if_pos h1]
  norm_num

theorem act_band_30 (n : ℤ) (h1 : 30 ≤ n) (h2 : n < 50) :
    calculateActivityScore n = 7 := by
  unfold calculateActivityScore
  rw [ite_cond_fails (by omega), ite_cond_fails (by omega), ite_cond_fails (by omega), if_pos h1]
  norm_num

theorem act_band_20 (n : ℤ) (h1 : 20 ≤ n) (h2 : n < 30) :
    calculateActivityScore n = 6.5 := by
  unfold calculateActivityScore
  rw [ite_cond_fails (by omega), ite_cond_fails (by omega), ite_cond_fails (by omega), ite_cond_fails (by omega), if_pos h1]

theorem act_band_15 (n : ℤ) (h1 : 15 ≤ n) (h2 : n < 20) :
    calculateActivityScore n = 6 := by
  unfold calculateActivityScore
  rw [ite_cond_fails (by omega), ite_cond_fails (by omega), ite_cond_fails (by omega), ite_cond_fails (by omega),
    ite_cond_fails (by omega), if_pos h1]
  norm_num

theorem act_band_10 (n : ℤ) (h1 : 10 ≤ n) (h2 : n < 15) :
    calculateActivityScore n = 5.5 := by
  unfold calculateActivityScore
  rw [ite_cond_fails (by omega), ite_cond_fails (by omega), ite_cond_fails (by omega), ite_cond_fails (by omega),
    ite_cond_fails (by omega), ite_cond_fails (by omega), if_pos h1]

theorem act_band_5 (n : ℤ) (h1 : 5 ≤ n) (h2 : n < 10) :
    calculateActivityScore n = 5 := by
  unfold calculateActivityScore
  rw [ite_cond_fails (by omega), ite_cond_fails (by omega), ite_cond_fails (by omega), ite_cond_fails (by omega),
    ite_cond_fails (by omega), ite_cond_fails (by omega), ite_cond_fails (by omega), if_pos h1]
  norm_num

theorem act_band_2 (n : ℤ) (h1 : 2 ≤ n) (h2 : n < 5) :
    calculateActivityScore n = 4.5 := by
  unfold calculateActivityScore
  rw [ite_cond_fails (by omega), ite_cond_fails (by omega), ite_cond_fails (by omega), ite_cond_fails (by omega),
    ite_cond_fails (by omega), ite_cond_fails (by omega), ite_cond_fails (by omega), ite_cond_fails (by omega), if_pos h1]

theorem act_band_1 (n : ℤ) (h1 : 0 < n) (h2 : n < 2) :
    calculateActivityScore n = 4 := by
  unfold calculateActivityScore
  rw [ite_cond_fails (by omega), ite_cond_fails (by omega), ite_cond_fails (by omega), ite_cond_fails (by omega),
    ite_cond_fails (by omega), ite_cond_fails (by omega), ite_cond_fails (by omega), ite_cond_fails (by omega),
    ite_cond_fails (by omega), if_pos h1]
  norm_num

theorem act_band_0 (n : ℤ) (h : n ≤ 0) : calculateActivityScore n = 3 := by
  unfold calculateActivityScore
  rw [ite_cond_fails (by omega), ite_cond_fails (by omega), ite_cond_fails (by omega), ite_cond_fails (by omega),
    ite_cond_fails (by omega), ite_cond_fails (by omega), ite_cond_fails (by omega), ite_cond_fails (by omega),
    ite_cond_fails (by omega), ite_cond_fails (by omega)]
  norm_num

theorem act_ub_1 (n : ℤ) (h : n < 2) : calculateActivityScore n ≤ 4 := by
  rcases lt_or_le 0 n with hp | hp
  · rw [act_band_1 n hp h]
  · rw [act_band_0 n hp]
    norm_num

theorem act_ub_2 (n : ℤ) (h : n < 5) : calculateActivityScore n ≤ 4.5 := by
  rcases le_or_lt 2 n with hp | hp
  · rw [act_band_2 n hp h]
  · exact le_trans (act_ub_1 n hp) (by norm_num)

theorem act_ub_5 (n : ℤ) (h : n < 10) : calculateActivityScore n ≤ 5 := by
  rcases le_or_lt 5 n with hp | hp
  · rw [act_band_5 n hp h]
  · exact le_trans (act_ub_2 n hp) (by norm_num)

theorem act_ub_10 (n : ℤ) (h : n < 15) : calculateActivityScore n ≤ 5.5 := by
  rcases le_or_lt 10 n with hp | hp
  · rw [act_band_10 n hp h]
  · exact le_trans (act_ub_5 n hp) (by norm_num)

theorem act_ub_15 (n : ℤ) (h : n < 20) : calculateActivityScore n ≤ 6 := by
  rcases le_or_lt 15 n with hp | hp
  · rw [act_band_15 n hp h]
  · exact le_trans (act_ub_10 n hp) (by norm_num)

theorem act_ub_20 (n : ℤ) (h : n < 30) : calculateActivityScore n ≤ 6.5 := by
  rcases le_or_lt 20 n with hp | hp
  · rw [act_band_20 n hp h]
  · exact le_trans (act_ub_15 n hp) (by norm_num)

theorem act_ub_30 (n : ℤ) (h : n < 50) : calculateActivityScore n ≤ 7 := by
  rcases le_or_lt 30 n with hp | hp
  · rw [act_band_30 n hp h]
  · exact le_trans (act_ub_20 n hp) (by norm_num)

theorem act_ub_50 (n : ℤ) (h : n < 75) : calculateActivityScore n ≤ 8 := by
  rcases le_or_lt 50 n with hp | hp
  · rw [act_band_50 n hp h]
  · exact le_trans (act_ub_30 n hp) (by norm_num)

theorem act_ub_75 (n : ℤ) (h : n < 100) : calculateActivityScore n ≤ 8.5 := by
  rcases le_or_lt 75 n with hp | hp
  · rw [act_band_75 n hp h]
  · exact le_trans (act_ub_50 n hp) (by norm_num)

theorem act_ub_top (n : ℤ) : calculateActivityScore n ≤ 9 := by
  rcases le_or_lt 100 n with hp | hp
  · rw [act_band_100 n hp]
  · exact le_trans (act_ub_75 n hp) (by norm_num)

/-- `calculateActivityScore` is monotone non-decreasing. -/
theorem act_mono (a b : ℤ) (hab : a ≤ b) :
    calculateActivityScore a ≤ calculateActivityScore b := by
  rcases le_or_lt 100 b with h100 | h100
  · rw [act_band_100 b h100]
    exact act_ub_top a
  rcases le_or_lt 75 b with h75 | h75
  · rw [act_band_75 b h75 h100]
    exact act_ub_75 a (by omega)
  rcases le_or_lt 50 b with h50 | h50
  · rw [act_band_50 b h50 h75]
    exact act_ub_50 a (by omega)
  rcases le_or_lt 30 b with h30 | h30
  · rw [act_band_30 b h30 h50]
    exact act_ub_30 a (by omega)
  rcases le_or_lt 20 b with h20 | h20
  · rw [act_band_20 b h20 h30]
    exact act_ub_20 a (by omega)
  rcases le_or_lt 15 b with h15 | h15
  · rw [act_band_15 b h15 h20]
    exact act_ub_15 a (by omega)
  rcases le_or_lt 10 b with h10 | h10
  · rw [act_band_10 b h10 h15]
    exact act_ub_10 a (by omega)
  rcases le_or_lt 5 b with h5 | h5
  · rw [act_band_5 b h5 h10]
    exact act_ub_5 a (by omega)
  rcases le_or_lt 2 b with h2 | h2
  · rw [act_band_2 b h2 h5]
    exact act_ub_2 a (by omega)
  rcases lt_or_le 0 b with h1 | h1
  · rw [act_band_1 b h1 h2]
    exact act_ub_1 a (by omega)
  · rw [act_band_0 b h1, act_band_0 a (by omega)]

theorem conv_band_90 (g : ℚ) (h : 90 ≤ g) : convertGoogleToSpree g = 9.5 := by
  unfold convertGoogleToSpree
  rw [if_pos h]

theorem conv_band_80 (g : ℚ) (h1 : 80 ≤ g) (h2 : g < 90) :
    convertGoogleToSpree g = 8.5 + (g - 80) / 20 := by
  unfold convertGoogleToSpree
  rw [if_neg (not_le.mpr h2), if_pos h1]

theorem conv_band_70 (g : ℚ) (h1 : 70 ≤ g) (h2 : g < 80) :
    convertGoogleToSpree g = 7.5 + (g - 70) / 20 := by
  unfold convertGoogleToSpree
  rw [if_neg (not_le.mpr (by linarith)), if_neg (not_le.mpr h2), if_pos h1]

theorem conv_band_60 (g : ℚ) (h1 : 60 ≤ g) (h2 : g < 70) :
    convertGoogleToSpree g = 7.0 + (g - 60) / 40 := by
  unfold convertGoogleToSpree
  rw [if_neg (not_le.mpr (by linarith)), if_neg (not_le.mpr (by linarith)),
    if_neg (not_le.mpr h2), if_pos h1]

theorem conv_band_50 (g : ℚ) (h1 : 50 ≤ g) (h2 : g < 60) :
    convertGoogleToSpree g = 6.5 + (g - 50) / 40 := by
  unfold convertGoogleToSpree
  rw [if_neg (not_le.mpr (by linarith)), if_neg (not_le.mpr (by linarith)),
    if_neg (not_le.mpr (by linarith)), if_neg (not_le.mpr h2), if_pos h1]

theorem conv_band_40 (g : ℚ) (h1 : 40 ≤ g) (h2 : g < 50) :
    convertGoogleToSpree g = 6.0 + (g - 40) / 40 := by
  unfold convertGoogleToSpree
  rw [if_neg (not_le.mpr (by linarith)), if_neg (not_le.mpr (by linarith)),
    if_neg (not_le.mpr (by linarith)), if_neg (not_le.mpr (by linarith)),
    if_neg (not_le.mpr h2), if_pos h1]

theorem conv_band_30 (g : ℚ) (h1 : 30 ≤ g) (h2 : g < 40) :
    convertGoogleToSpree g = 5.5 + (g - 30) / 40 := by
  unfold convertGoogleToSpree
  rw [if_neg (not_le.mpr (by linarith)), if_neg (not_le.mpr (by linarith)),
    if_neg (not_le.mpr (by linarith)), if_neg (not_le.mpr (by linarith)),
    if_neg (not_le.mpr (by linarith)), if_neg (not_le.mpr h2), if_pos h1]

theorem conv_band_20 (g : ℚ) (h1 : 20 ≤ g) (h2 : g < 30) :
    convertGoogleToSpree g = 5.0 + (g - 20) / 40 := by
  unfold convertGoogleToSpree
  rw [if_neg (not_le.mpr (by linarith)), if_neg (not_le.mpr (by linarith)),
    if_neg (not_le.mpr (by linarith)), if_neg (not_le.mpr (by linarith)),
    if_neg (not_le.mpr (by linarith)), if_neg (not_le.mpr (by linarith)),
    if_neg (not_le.mpr h2), if_pos h1]

theorem conv_band_10 (g : ℚ) (h1 : 10 ≤ g) (h2 : g < 20) :
    convertGoogleToSpree g = 4.0 + (g - 10) / 20 := by
  unfold convertGoogleToSpree
  rw [if_neg (not_le.mpr (by linarith)), if_neg (not_le.mpr (by linarith)),
    if_neg (not_le.mpr (by linarith)), if_neg (not_le.mpr (by linarith)),
    if_neg (not_le.mpr (by linarith)), if_neg (not_le.mpr (by linarith)),
    if_neg (not_le.mpr (by linarith)), if_neg (not_le.mpr h2), if_pos h1]

theorem conv_band_pos (g : ℚ) (h1 : 0 < g) (h2 : g < 10) :
    convertGoogleToSpree g = 3.0 + g / 10 := by
  unfold convertGoogleToSpree
  rw [if_neg (not_le.mpr (by linarith)), if_neg (not_le.mpr (by linarith)),
    if_neg (not_le.mpr (by linarith)), if_neg (not_le.mpr (by linarith)),
    if_neg (not_le.mpr (by linarith)), if_neg (not_le.mpr (by linarith)),
    if_neg (not_le.mpr (by linarith)), if_neg (not_le.mpr (by linarith)),
    if_neg (not_le.mpr h2), if_pos h1]

theorem conv_band_bot (g : ℚ) (h : g ≤ 0) : convertGoogleToSpree g = 3 := by
  unfold convertGoogleToSpree
  rw [if_neg (not_le.mpr (by linarith)), if_neg (not_le.mpr (by linarith)),
    if_neg (not_le.mpr (by linarith)), if_neg (not_le.mpr (by linarith)),
    if_neg (not_le.mpr (by linarith)), if_neg (not_le.mpr (by linarith)),
    if_neg (not_le.mpr (by linarith)), if_neg (not_le.mpr (by linarith)),
    if_neg (not_le.mpr (by linarith)), if_neg (not_lt.mpr h)]
  norm_num

theorem conv_ub_pos (g : ℚ) (h : g < 10) : convertGoogleToSpree g ≤ 4 := by
  rcases lt_or_le 0 g with hp | hp
  · rw [conv_band_pos g hp h]
    linarith
  · rw [conv_band_bot g hp]
    norm_num

theorem conv_ub_10 (g : ℚ) (h : g < 20) : convertGoogleToSpree g ≤ 4.5 := by
  rcases le_or_lt 10 g with hp | hp
  · rw [conv_band_10 g hp h]
    linarith
  · exact le_trans (conv_ub_pos g hp) (by norm_num)

theorem conv_ub_20 (g : ℚ) (h : g < 30) : convertGoogleToSpree g ≤ 5.25 := by
  rcases le_or_lt 20 g with hp | hp
  · rw [conv_band_20 g hp h]
    linarith
  · exact le_trans (conv_ub_10 g hp) (by norm_num)

theorem conv_ub_30 (g : ℚ) (h : g < 40) : convertGoogleToSpree g ≤ 5.75 := by
  rcases le_or_lt 30 g with hp | hp
  · rw [conv_band_30 g hp h]
    linarith
  · exact le_trans (conv_ub_20 g hp) (by norm_num)

theorem conv_ub_40 (g : ℚ) (h : g < 50) : convertGoogleToSpree g ≤ 6.25 := by
  rcases le_or_lt 40 g with hp | hp
  · rw [conv_band_40 g hp h]
    linarith
  · exact le_trans (conv_ub_30 g hp) (by norm_num)

theorem conv_ub_50 (g : ℚ) (h : g < 60) : convertGoogleToSpree g ≤ 6.75 := by
  rcases le_or_lt 50 g with hp | hp
  · rw [conv_band_50 g hp h]
    linarith
  · exact le_trans (conv_ub_40 g hp) (by norm_num)

theorem conv_ub_60 (g : ℚ) (h : g < 70) : convertGoogleToSpree g ≤ 7.25 := by
  rcases le_or_lt 60 g with hp | hp
  · rw [conv_band_60 g hp h]
    linarith
  · exact le_trans (conv_ub_50 g hp) (by norm_num)

theorem conv_ub_70 (g : ℚ) (h : g < 80) : convertGoogleToSpree g ≤ 8 := by
  rcases le_or_lt 70 g with hp | hp
  · rw [conv_band_70 g hp h]
    linarith
  · exact le_trans (conv_ub_60 g hp) (by norm_num)

theorem conv_ub_80 (g : ℚ) (h : g < 90) : convertGoogleToSpree g ≤ 9 := by
  rcases le_or_lt 80 g with hp | hp
  · rw [conv_band_80 g hp h]
    linarith
  · exact le_trans (conv_ub_70 g hp) (by norm_num)

theorem conv_ub_top (g : ℚ) : convertGoogleToSpree g ≤ 9.5 := by
  rcases le_or_lt 90 g with hp | hp
  · rw [conv_band_90 g hp]
  · exact le_trans (conv_ub_80 g hp) (by norm_num)

/-- `convertGoogleToSpree` is monotone non-decreasing. -/
theorem conv_mono (a b : ℚ) (hab : a ≤ b) :
    convertGoogleToSpree a ≤ convertGoogleToSpree b := by
  rcases le_or_lt 90 b with h90 | h90
  · rw [conv_band_90 b h90]
    exact conv_ub_top a
  rcases le_or_lt 80 b with h80 | h80
  · rw [conv_band_80 b h80 h90]
    rcases le_or_lt 80 a with ha | ha
    · rw [conv_band_80 a ha (by linarith)]
      linarith
    · exact le_trans (conv_ub_70 a ha) (by linarith)
  rcases le_or_lt 70 b with h70 | h70
  · rw [conv_band_70 b h70 h80]
    rcases le_or_lt 70 a with ha | ha
    · rw [conv_band_70 a ha (by linarith)]
      linarith
    · exact le_trans (conv_ub_60 a ha) (by linarith)
  rcases le_or_lt 60 b with h60 | h60
  · rw [conv_band_60 b h60 h70]
    rcases le_or_lt 60 a with ha | ha
    · rw [conv_band_60 a ha (by linarith)]
      linarith
    · exact le_trans (conv_ub_50 a ha) (by linarith)
  rcases le_or_lt 50 b with h50 | h50
  · rw [conv_band_50 b h50 h60]
    rcases le_or_lt 50 a with ha | ha
    · rw [conv_band_50 a ha (by linarith)]
      linarith
    · exact le_trans (conv_ub_40 a ha) (by linarith)
  rcases le_or_lt 40 b with h40 | h40
  · rw [conv_band_40 b h40 h50]
    rcases le_or_lt 40 a with ha | ha
    · rw [conv_band_40 a ha (by linarith)]
      linarith
    · exact le_trans (conv_ub_30 a ha) (by linarith)
  rcases le_or_lt 30 b with h30 | h30
  · rw [conv_band_30 b h30 h40]
    rcases le_or_lt 30 a with ha | ha
    · rw [conv_band_30 a ha (by linarith)]
      linarith
    · exact le_trans (conv_ub_20 a ha) (by linarith)
  rcases le_or_lt 20 b with h20 | h20
  · rw [conv_band_20 b h20 h30]
    rcases le_or_lt 20 a with ha | ha
    · rw [conv_band_20 a ha (by linarith)]
      linarith
    · exact le_trans (conv_ub_10 a ha) (by linarith)
  rcases le_or_lt 10 b with h10 | h10
  · rw [conv_band_10 b h10 h20]
    rcases le_or_lt 10 a with ha | ha
    · rw [conv_band_10 a ha (by linarith)]
      linarith
    · exact le_trans (conv_ub_pos a ha) (by linarith)
  rcases lt_or_le 0 b with hpos | hpos
  · rw [conv_band_pos b hpos h10]
    rcases lt_or_le 0 a with ha | ha
    · rw [conv_band_pos a ha (by linarith)]
      linarith
    · rw [conv_band_bot a ha]
      linarith
  · rw [conv_band_bot b hpos, conv_band_bot a (by linarith)]

/-- Claim C7: `calculateActivityScore` is monotone non-decreasing in the
active check-in count, `convertGoogleToSpree` is monotone non-decreasing
in the external level, and `convertGoogleToSpree 0 = 3.0`. -/
theorem C7_monotone :
    (∀ a b : ℤ, a ≤ b → calculateActivityScore a ≤ calculateActivityScore b) ∧
    (∀ x y : ℚ, x ≤ y → convertGoogleToSpree x ≤ convertGoogleToSpree y) ∧
    convertGoogleToSpree 0 = 3 :=
  ⟨act_mono, conv_mono, conv_band_bot 0 le_rfl⟩

/-- Witness for C7 at concrete inputs. -/
theorem C7_monotone_witness :
    calculateActivityScore 2 ≤ calculateActivityScore 5 ∧
    convertGoogleToSpree 40 ≤ convertGoogleToSpree 85 ∧
    convertGoogleToSpree 0 = 3 :=
  ⟨C7_monotone.1 2 5 (by norm_num), C7_monotone.2.1 40 85 (by norm_num),
    C7_monotone.2.2⟩

/-- Counterexample for claim C3: with 5 data points (no quantity
adjustment) and age 121 minutes, the spree-source confidence is 0.8 —
only the −0.10 deduction fired — not the 0.6 the claim's −0.30 total
age deduction would give. -/
theorem C3_counterexample :
    calculateConfidence 5 121 ConfidenceSource.spree = 0.8 ∧
    calculateConfidence 5 121 ConfidenceSource.spree ≠ 0.9 - 0.3 := by
  unfold calculateConfidence
  norm_num [min_def, max_def]

/-- Claim C3 as amended: the freshness adjustments are an `else if`
chain, so for any age above 120 minutes only the >60-minute −0.10
deduction applies; the −0.20 branch is unreachable. -/
theorem C3_age_over_120 (dataPoints : ℤ) (dataAge : ℚ) (src : ConfidenceSource)
    (h : 120 < dataAge) :
    calculateConfidence dataPoints dataAge src =
      min 1 (max 0.1 (confidenceSourceBase src + confidenceQuantityAdj dataPoints - 0.1)) := by
  cases src <;>
    (unfold calculateConfidence confidenceSourceBase confidenceQuantityAdj
     split_ifs <;> first | linarith | norm_num)

/-- Witness for C3 as amended, at data points 5, age 121, source spree. -/
theorem C3_age_over_120_witness :
    (120 : ℚ) < 121 ∧
    calculateConfidence 5 121 ConfidenceSource.spree =
      min 1 (max 0.1 (confidenceSourceBase ConfidenceSource.spree + confidenceQuantityAdj 5 - 0.1)) :=
  ⟨by norm_num, C3_age_over_120 5 121 ConfidenceSource.spree (by norm_num)⟩

/-- Claim C10: when the usual level for the hour is 0, the guarded
quotient is replaced (by 1, `'average'`) in `calculateRelativeLevel`, and
`getBusynessLevel` returns `'average'` directly; neither service divides
by the zero usual level. -/
theorem C10_zero_usual (current : ℚ) :
    calculateRelativeLevel current 0 = RelativeLevel.average ∧
    getBusynessLevel current 0 = RelativeLevel.average := by
  constructor
  · unfold calculateRelativeLevel
    norm_num
  · unfold getBusynessLevel
    norm_num

/-- A metrics record used for concrete evaluations. -/
def sampleMetrics : VenueMetrics :=
  { venueId := 1, activeCheckIns := 0, checkInsLast30Min := 0, checkInsLastHour := 0,
    checkInTrend := .stable, reportedWaitTime := none, recentRatings := 0,
    recentSentiment := 0, vibePhotosCount := 0, dayOfWeek := 2, hourOfDay := 12,
    isSpecialEvent := false }

/-- A google-service oracle that always returns no data. -/
def noGoogle : String → Option GoogleBusynessData := fun _ => none

/-- The consensus computed from no rows at all. -/
def emptyConsensus : CommunityConsensus := getConsensus [] [] []

/-- Counterexample for claim C1: the inner computation does raise
`VenueNotFound` for an unresolved venue id, but `calculatePulse`'s
catch-all converts it into the default score `{5.0, 0.3, ESTIMATED}` —
the caller receives a score, not a failure. -/
theorem C1_counterexample :
    calculatePulseInner none sampleMetrics noGoogle emptyConsensus 12 2
        = .error PulseError.VenueNotFound ∧
    calculatePulse none sampleMetrics noGoogle emptyConsensus 12 2 = getDefaultPulse :=
  ⟨rfl, rfl⟩

/-- Claim C1 as amended: for an unresolved venue id the engine raises
`VenueNotFound` internally, but the surrounding catch converts it into
the default pulse, so the caller of `calculate()` always receives a
score — the default `{5.0, 0.3, ESTIMATED}` — and never the error. -/
theorem C1_default_on_missing_venue (metrics : VenueMetrics)
    (fetch : String → Option GoogleBusynessData) (communityData : CommunityConsensus)
    (hour dayOfWeek : ℤ) :
    calculatePulseInner none metrics fetch communityData hour dayOfWeek
        = .error PulseError.VenueNotFound ∧
    calculatePulse none metrics fetch communityData hour dayOfWeek = getDefaultPulse :=
  ⟨rfl, rfl⟩

/-- Cast form of the 30%-of-total consensus threshold. -/
theorem consensusThreshold_iff (t c : ℕ) :
    ((t:ℚ) * (3/10) ≤ (c:ℚ)) ↔ 3 * t ≤ 10 * c := by
  constructor
  · intro h
    have h2 : (3:ℚ) * t ≤ 10 * c := by linarith
    exact_mod_cast h2
  · intro h
    have h2 : ((3 * t : ℕ) : ℚ) ≤ ((10 * c : ℕ) : ℚ) := Nat.cast_le.mpr h
    push_cast at h2
    linarith

/-- A bare vibe report row carrying only a label. -/
def vibeRow (v : VibeLevel) : VibeReportRow :=
  { vibe_level := some v, wait_time_minutes := none, crowd_estimate := none }

/-- The ten-report split of claim C2: 3 busy, 3 chill, 2 packed, 2 dead. -/
def tenVibeReports : List VibeReportRow :=
  List.replicate 3 (vibeRow VibeLevel.busy) ++ List.replicate 3 (vibeRow VibeLevel.chill)
    ++ List.replicate 2 (vibeRow VibeLevel.packed) ++ List.replicate 2 (vibeRow VibeLevel.dead)

/-- Counterexample for claim C2: on the split {busy:3, chill:3, packed:2,
dead:2} the consensus is not null — the tally loop iterates dead, chill,
busy, packed and keeps the first label reaching the maximum, so `'chill'`
(count 3 = 30% of 10) is returned. -/
theorem C2_counterexample :
    (getConsensus tenVibeReports [] []).consensusVibe = some VibeLevel.chill := by
  show findConsensusVibe (tallyVibes tenVibeReports) = some VibeLevel.chill
  have ht : tallyVibes tenVibeReports = ⟨2, 3, 3, 2⟩ := rfl
  rw [ht]
  simp only [findConsensusVibe, List.foldl_cons, List.foldl_nil, consensusThreshold_iff]
  norm_num

/-- Claim C2 as amended: a label is the consensus exactly when its count
is positive, at least 30% of the total, at least every other label's
count, and strictly above every label earlier in the iteration order
dead, chill, busy, packed — so a tie on the maximum is won by the
earliest label in that order, not reported as null. -/
theorem C2_consensus_rule (d c b p : ℕ) :
    (findConsensusVibe ⟨d, c, b, p⟩ = some VibeLevel.dead ↔
      0 < d ∧ 3 * (d + c + b + p) ≤ 10 * d ∧ c ≤ d ∧ b ≤ d ∧ p ≤ d) ∧
    (findConsensusVibe ⟨d, c, b, p⟩ = some VibeLevel.chill ↔
      0 < c ∧ 3 * (d + c + b + p) ≤ 10 * c ∧ d < c ∧ b ≤ c ∧ p ≤ c) ∧
    (findConsensusVibe ⟨d, c, b, p⟩ = some VibeLevel.busy ↔
      0 < b ∧ 3 * (d + c + b + p) ≤ 10 * b ∧ d < b ∧ c < b ∧ p ≤ b) ∧
    (findConsensusVibe ⟨d, c, b, p⟩ = some VibeLevel.packed ↔
      0 < p ∧ 3 * (d + c + b + p) ≤ 10 * p ∧ d < p ∧ c < p ∧ b < p) := by
  simp only [findConsensusVibe, List.foldl_cons, List.foldl_nil, consensusThreshold_iff]
  split_ifs <;> refine ⟨?_, ?_, ?_, ?_⟩ <;> simp <;> omega

/-- The sparse path's Step-1 state never carries COMMUNITY provenance. -/
theorem sparseGoogleStep_ne_community (googleData : Option GoogleBusynessData) :
    (sparseGoogleStep googleData).dataSource ≠ VenueDataSource.community := by
  cases googleData with
  | none => simp [sparseGoogleStep]
  | some g =>
    simp only [sparseGoogleStep]
    split_ifs <;> simp

/-- Claim C5: on the sparse path, when the consensus has at least 3 data
points and the influence weight is positive, the returned score blends
the Step-1 base as `base*(1-w) + (base+adjustment)*w`, the confidence is
raised to `min 0.8 (confidence + w*0.3)`, and the provenance is COMMUNITY
exactly when the consensus has at least 10 data points (otherwise it
keeps the Step-1 provenance, which is never COMMUNITY). -/
theorem C5_community_blend (venue : VenueRecord)
    (fetch : String → Option GoogleBusynessData) (c : CommunityConsensus)
    (hour dayOfWeek : ℤ) (hdp : c.dataPoints ≥ 3)
    (hw : (calculateInfluence c).influence > 0) :
    (calculateNonPartnerPulse venue fetch c hour dayOfWeek).confidence
        = min 0.8 ((sparseGoogleStep (venueGoogleData venue fetch)).confidence
            + (calculateInfluence c).influence * 0.3) ∧
    ((calculateNonPartnerPulse venue fetch c hour dayOfWeek).dataSource
        = VenueDataSource.community ↔ c.dataPoints ≥ 10) ∧
    (calculateNonPartnerPulse venue fetch c hour dayOfWeek).value
        = (jsRound (min 10 (max 0 (applyTimeModifiers
            ((sparseGoogleStep (venueGoogleData venue fetch)).basePulse
                * (1 - (calculateInfluence c).influence)
              + ((sparseGoogleStep (venueGoogleData venue fetch)).basePulse
                  + (calculateInfluence c).adjustment)
                * (calculateInfluence c).influence)
            hour dayOfWeek)) * 10) : ℚ) / 10 := by
  simp only [calculateNonPartnerPulse, if_pos hdp, if_pos hw]
  refine ⟨trivial, ?_, trivial⟩
  by_cases h10 : c.dataPoints ≥ 10
  · simp [if_pos h10, h10]
  · simp only [if_neg h10]
    simp [sparseGoogleStep_ne_community, h10]

/-- A consensus record with 4 data points and no label, for the C5
witness: its influence weight is `min 0.4 (4/20) = 0.2 > 0`. -/
def consensusW : CommunityConsensus :=
  { vibeReports := 0, consensusVibe := none, vibeScores := ⟨0, 0, 0, 0⟩,
    averageWaitTime := none, anonymousPings := 0, uniqueDevices := 0,
    socialSignals := 4, dataPoints := 4 }

/-- A sparse venue with no external place id, for the C5 witness. -/
def venueW : VenueRecord :=
  { id := 1, name := "w", spree_onboarded := false, google_place_id := none }

/-- Witness for C5 at a concrete sparse venue and 4-point consensus. -/
theorem C5_community_blend_witness :
    consensusW.dataPoints ≥ 3 ∧ (calculateInfluence consensusW).influence > 0 ∧
    ((calculateNonPartnerPulse venueW noGoogle consensusW 12 2).confidence
        = min 0.8 ((sparseGoogleStep (venueGoogleData venueW noGoogle)).confidence
            + (calculateInfluence consensusW).influence * 0.3) ∧
    ((calculateNonPartnerPulse venueW noGoogle consensusW 12 2).dataSource
        = VenueDataSource.community ↔ consensusW.dataPoints ≥ 10) ∧
    (calculateNonPartnerPulse venueW noGoogle consensusW 12 2).value
        = (jsRound (min 10 (max 0 (applyTimeModifiers
            ((sparseGoogleStep (venueGoogleData venueW noGoogle)).basePulse
                * (1 - (calculateInfluence consensusW).influence)
              + ((sparseGoogleStep (venueGoogleData venueW noGoogle)).basePulse
                  + (calculateInfluence consensusW).adjustment)
                * (calculateInfluence consensusW).influence)
            12 2)) * 10) : ℚ) / 10) :=
  ⟨by norm_num [consensusW], by norm_num [calculateInfluence, consensusW, min_def],
    C5_community_blend venueW noGoogle consensusW 12 2 (by norm_num [consensusW])
      (by norm_num [calculateInfluence, consensusW, min_def])⟩

/-- `submitVibeReport` rejects when a matching in-window row exists. -/
theorem submit_blocked (now : ℤ) (db : List StoredReport) (r : QuickVibeReport)
    (e : StoredReport) (he : e ∈ db) (hv : e.venue_id = r.venue_id)
    (hu : e.user_id = r.user_id) (ht : now - 60 ≤ e.created_at) :
    submitVibeReport now db r = .error SubmitError.RateLimited := by
  simp only [submitVibeReport]
  rw [if_pos]
  rw [List.any_eq_true]
  exact ⟨e, he, by simp only [decide_eq_true_eq]; exact ⟨hv, hu, ht⟩⟩

/-- `submitVibeReport` accepts and stores the stamped row when no
matching in-window row exists. -/
theorem submit_allowed (now : ℤ) (db : List StoredReport) (r : QuickVibeReport)
    (hnone : ∀ e ∈ db, e.venue_id = r.venue_id → e.user_id = r.user_id →
      e.created_at < now - 60) :
    submitVibeReport now db r =
      .ok ({ venue_id := r.venue_id, user_id := r.user_id, vibe_level := r.vibe_level,
             wait_time_minutes := r.wait_time_minutes, crowd_estimate := r.crowd_estimate,
             created_at := now } :: db) := by
  simp only [submitVibeReport]
  rw [if_neg]
  simp only [List.any_eq_true, decide_eq_true_eq, not_exists]
  rintro x ⟨hx, hv, hu, hts⟩
  exact absurd hts (not_le.mpr (hnone x hx hv hu))

/-- Claim C8: once a report from the same participant for the same venue
has been accepted at time `t₀`, a second submission at `t₀ + 59` minutes
is rejected `RateLimited`, and a second submission at `t₀ + 61` minutes
is accepted. -/
theorem C8_rate_limit (db₀ db₁ : List StoredReport) (r : QuickVibeReport) (t₀ : ℤ)
    (h : submitVibeReport t₀ db₀ r = .ok db₁) :
    submitVibeReport (t₀ + 59) db₁ r = .error SubmitError.RateLimited ∧
    ∃ db₂, submitVibeReport (t₀ + 61) db₁ r = .ok db₂ := by
  simp only [submitVibeReport] at h
  split at h
  · exact absurd h (by simp)
  · rename_i hc
    simp only [List.any_eq_true, decide_eq_true_eq] at hc
    push_neg at hc
    simp only [Except.ok.injEq] at h
    subst h
    constructor
    · exact submit_blocked (t₀ + 59) _ r _ (List.mem_cons_self _ _) rfl rfl
        (by show t₀ + 59 - 60 ≤ t₀; omega)
    · refine ⟨_, submit_allowed (t₀ + 61) _ r ?_⟩
      intro e he hv hu
      rcases List.mem_cons.mp he with hhead | htail
      · subst hhead
        show t₀ < t₀ + 61 - 60
        omega
      · have := hc e htail hv hu
        omega

/-- A report used by the C8 witness. -/
def reportW : QuickVibeReport :=
  { venue_id := 1, user_id := "u", vibe_level := VibeLevel.busy,
    wait_time_minutes := none, crowd_estimate := none }

/-- The row stored by accepting `reportW` at time 0. -/
def storedW : StoredReport :=
  { venue_id := 1, user_id := "u", vibe_level := VibeLevel.busy,
    wait_time_minutes := none, crowd_estimate := none, created_at := 0 }

/-- Witness for C8: first report accepted at minute 0; resubmission at
minute 59 is rate limited, resubmission at minute 61 is accepted. -/
theorem C8_rate_limit_witness :
    submitVibeReport 0 [] reportW = .ok [storedW] ∧
    (submitVibeReport (0 + 59) [storedW] reportW = .error SubmitError.RateLimited ∧
      ∃ db₂, submitVibeReport (0 + 61) [storedW] reportW = .ok db₂) :=
  ⟨rfl, C8_rate_limit [] [storedW] reportW 0 rfl⟩

/-- Flattening the chunks recovers the venue list (enough fuel given). -/
theorem chunkGo_flatten (fuel : ℕ) (l : List α) (h : l.length ≤ fuel) :
    (chunkGo fuel l).flatten = l := by
  induction fuel generalizing l with
  | zero =>
    cases l with
    | nil => rfl
    | cons x xs => simp at h
  | succ n ih =>
    cases l with
    | nil => rfl
    | cons x xs =>
      rw [chunkGo, List.flatten_cons, ih _ (by simp only [List.length_drop, List.length_cons] at h ⊢; omega)]
      exact List.take_append_drop 10 (x :: xs)

/-- `chunked10` partitions the venue list: its chunks flatten back. -/
theorem chunked10_flatten (l : List α) : (chunked10 l).flatten = l :=
  chunkGo_flatten l.length l le_rfl

/-- The number of chunks is the length divided by 10, rounded up. -/
theorem chunkGo_length (fuel : ℕ) (l : List α) (h : l.length ≤ fuel) :
    (chunkGo fuel l).length = (l.length + 9) / 10 := by
  induction fuel generalizing l with
  | zero =>
    cases l with
    | nil => simp [chunkGo]
    | cons x xs => simp at h
  | succ n ih =>
    cases l with
    | nil => simp [chunkGo]
    | cons x xs =>
      rw [chunkGo, List.length_cons, ih _ (by simp only [List.length_drop, List.length_cons] at h ⊢; omega)]
      simp only [List.length_drop, List.length_cons]
      simp at h
      omega

/-- The chunked fold of per-venue outcomes is the plain map over the
venue list: every venue gets exactly one outcome, regardless of how the
venues are chunked or which evaluations fail. -/
theorem batch_results_eq (evalVenue : VenueRecord → Option PulseData)
    (venues : List VenueRecord) :
    (chunked10 venues).foldl
        (fun acc chunk => acc ++ chunk.map (outcomeFor evalVenue)) []
      = venues.map (outcomeFor evalVenue) := by
  have hgen : ∀ (L : List (List VenueRecord)) (acc : List VenueOutcome),
      L.foldl (fun acc chunk => acc ++ chunk.map (outcomeFor evalVenue)) acc
        = acc ++ (L.flatten.map (outcomeFor evalVenue)) := by
    intro L
    induction L with
    | nil => intro acc; simp
    | cons ch chs ih =>
      intro acc
      simp [List.foldl_cons, ih, List.flatten_cons, List.append_assoc]
  rw [hgen, chunked10_flatten]
  simp

/-- A Boolean predicate and its negation count every element once. -/
theorem countP_add_countP_not (p : α → Bool) (l : List α) :
    l.countP p + l.countP (fun a => !p a) = l.length := by
  induction l with
  | nil => rfl
  | cons x xs ih =>
    simp only [List.countP_cons, List.length_cons]
    cases hx : p x <;> simp [hx] <;> omega

/-- The failure marker of an outcome record mirrors the oracle. -/
theorem outcomeFor_success (evalVenue : VenueRecord → Option PulseData)
    (v : VenueRecord) :
    (outcomeFor evalVenue v).success = (evalVenue v).isSome := by
  cases hv : evalVenue v <;> simp [outcomeFor, hv]

/-- Claim C6: over 23 eligible venues the batch runs exactly 3 chunks of
size 10; the outcome list is the plain per-venue map — so a failure in
chunk 2 cannot suppress any chunk-3 evaluation — and the `failed` count
is exactly the number of venues whose evaluation failed. -/
theorem C6_batch_isolation (evalVenue : VenueRecord → Option PulseData)
    (venues : List VenueRecord) (h23 : venues.length = 23) :
    (chunked10 venues).length = 3 ∧
    (chunked10 venues).foldl
        (fun acc chunk => acc ++ chunk.map (outcomeFor evalVenue)) []
      = venues.map (outcomeFor evalVenue) ∧
    (updateAllVenues evalVenue venues).failed
      = venues.countP (fun v => (evalVenue v).isNone) := by
  have hne : venues.isEmpty = false := by
    cases venues with
    | nil => simp at h23
    | cons x xs => rfl
  refine ⟨?_, batch_results_eq evalVenue venues, ?_⟩
  · rw [chunked10, chunkGo_length venues.length venues le_rfl, h23]
  · simp only [updateAllVenues, hne, Bool.false_eq_true, if_false]
    rw [batch_results_eq evalVenue venues, List.countP_map]
    apply List.countP_congr
    intro v _
    simp only [Function.comp_apply, outcomeFor_success]
    cases hv : evalVenue v <;> simp [hv]

/-- 23 sparse venues with ids 0..22, for the C6 witness. -/
def venues23 : List VenueRecord :=
  (List.range 23).map
    (fun i => { id := (i : ℤ), name := "", spree_onboarded := false,
                google_place_id := none })

/-- An evaluation oracle that fails exactly on venue 15 (chunk 2). -/
def eval23 : VenueRecord → Option PulseData :=
  fun v => if v.id = 15 then none else some getDefaultPulse

/-- Witness for C6: the 23 concrete venues produce 3 chunks, a full
outcome map, and a failed count equal to the single forced failure. -/
theorem C6_batch_isolation_witness :
    venues23.length = 23 ∧
    ((chunked10 venues23).length = 3 ∧
    (chunked10 venues23).foldl
        (fun acc chunk => acc ++ chunk.map (outcomeFor eval23)) []
      = venues23.map (outcomeFor eval23) ∧
    (updateAllVenues eval23 venues23).failed
      = venues23.countP (fun v => (eval23 v).isNone)) :=
  ⟨rfl, C6_batch_isolation eval23 venues23 rfl⟩

/-- Claim C9: every batch summary satisfies `total = updated + failed`,
and every notable/hot entry comes from a successful per-venue outcome
with pulse at least 7. -/
theorem C9_batch_invariants (evalVenue : VenueRecord → Option PulseData)
    (venues : List VenueRecord) :
    (updateAllVenues evalVenue venues).total
        = (updateAllVenues evalVenue venues).updated
          + (updateAllVenues evalVenue venues).failed ∧
    ∀ hv ∈ (updateAllVenues evalVenue venues).hotVenues,
      (7 : ℚ) ≤ hv.pulse ∧
      ∃ v ∈ venues, (outcomeFor evalVenue v).success = true ∧
        (outcomeFor evalVenue v).venueId = hv.id ∧
        (outcomeFor evalVenue v).name = hv.name ∧
        (outcomeFor evalVenue v).pulse = hv.pulse := by
  by_cases hemp : venues.isEmpty = true
  · rw [List.isEmpty_iff] at hemp
    subst hemp
    constructor
    · rfl
    · intro hv hmem
      simp [updateAllVenues] at hmem
  · rw [Bool.not_eq_true] at hemp
    constructor
    · simp only [updateAllVenues, hemp, Bool.false_eq_true, if_false]
      rw [batch_results_eq evalVenue venues]
      have hlen : (venues.map (outcomeFor evalVenue)).length = venues.length :=
        List.length_map _ _
      rw [← hlen]
      exact (countP_add_countP_not (fun r : VenueOutcome => r.success) _).symm
    · intro hv hmem
      simp only [updateAllVenues, hemp, Bool.false_eq_true, if_false] at hmem
      rw [List.mem_mergeSort] at hmem
      obtain ⟨rec, hrmem, hreq⟩ := List.mem_map.mp hmem
      obtain ⟨hrres, hpred⟩ := List.mem_filter.mp hrmem
      rw [batch_results_eq evalVenue venues] at hrres
      obtain ⟨v, hvmem, hveq⟩ := List.mem_map.mp hrres
      rw [Bool.and_eq_true, decide_eq_true_eq] at hpred
      subst hreq
      subst hveq
      exact ⟨hpred.2, v, hvmem, hpred.1, rfl, rfl, rfl⟩

/-- Two venues for the C9 witness. -/
def venuesW9 : List VenueRecord :=
  [{ id := 1, name := "a", spree_onboarded := false, google_place_id := none },
   { id := 2, name := "b", spree_onboarded := false, google_place_id := none }]

/-- An oracle for the C9 witness: venue 1 scores 8, venue 2 fails. -/
def evalW9 : VenueRecord → Option PulseData :=
  fun v => if v.id = 1 then
    some { value := 8, confidence := 0.5, dataSource := VenueDataSource.estimated,
           breakdown := none }
  else none

/-- The hot entry the C9 witness batch produces. -/
def hotW9 : HotVenue := { id := 1, name := "a", pulse := 8 }

/-- Witness for C9 on a concrete two-venue batch with one failure. -/
theorem C9_batch_invariants_witness :
    ((updateAllVenues evalW9 venuesW9).total
        = (updateAllVenues evalW9 venuesW9).updated
          + (updateAllVenues evalW9 venuesW9).failed) ∧
    ((7 : ℚ) ≤ hotW9.pulse ∧
      ∃ v ∈ venuesW9, (outcomeFor evalW9 v).success = true ∧
        (outcomeFor evalW9 v).venueId = hotW9.id ∧
        (outcomeFor evalW9 v).name = hotW9.name ∧
        (outcomeFor evalW9 v).pulse = hotW9.pulse) :=
  ⟨(C9_batch_invariants evalW9 venuesW9).1,
    (C9_batch_invariants evalW9 venuesW9).2 hotW9
      (List.mem_mergeSort.mpr (by decide))⟩
